import Mathlib

/-!
Shallow embedding of the user-folder claim/assignment protocol of
`user_assignment_script.py` and the mirror-sync routines of
`create_user_home.py`, together with proofs of the behavioural
properties of the resolver, the claim ledger and the sync engine.

Backend state (the set of `ibd_root/` folder names, the per-folder
`taken_by.txt` marker objects, and write-success behaviour) is modelled
explicitly; every `datetime.now().isoformat()` call is modelled by
reading an abstract clock `now : Nat -> String` at an increasing
counter, so distinct calls may yield distinct timestamp strings.

String primitives of the source (`startswith`, `endswith`, `strip`,
`lower`, `split('\n')[0]`, substring membership, `int(...)` on digit
strings) are modelled on the character list underlying a `String`, so
that every definition evaluates by kernel reduction.
-/

/-- Python `s.startswith(p)`. -/
def strStarts (s p : String) : Bool := p.data.isPrefixOf s.data

/-- Python `s.endswith(p)`. -/
def strEnds (s p : String) : Bool := p.data.isSuffixOf s.data

/-- Auxiliary scan for substring membership. -/
def strHasAux (p : List Char) : List Char → Bool
  | [] => p.isEmpty
  | c :: rest => p.isPrefixOf (c :: rest) || strHasAux p rest

/-- Python `p in s` (substring membership). -/
def strHas (s p : String) : Bool := strHasAux p.data s.data

/-- Python `s.strip()`: whitespace removed from both ends. -/
def strTrim (s : String) : String :=
  String.mk (((s.data.dropWhile Char.isWhitespace).reverse.dropWhile Char.isWhitespace).reverse)

/-- Python `s.lower()`. -/
def strLower (s : String) : String := String.mk (s.data.map Char.toLower)

/-- Python `s.split('\n')[0]`: the characters before the first newline. -/
def firstLine (s : String) : String :=
  String.mk (s.data.takeWhile (fun c => !(c == ('\n'))))

/-- Value of a digit string, Python `int(s)` restricted to the digit
strings enumeration feeds it. -/
def digitsVal (l : List Char) : Nat := l.foldl (fun n c => 10 * n + (c.toNat - 48)) 0

/-- Numeric suffix of a folder name, `int(x[4:])` in the sort key of
both enumerations. -/
def numSuffix (s : String) : Nat := digitsVal (s.data.drop 4)

/-- The `user<N>` naming convention test used by both enumerations:
`name.startswith('user') and name[4:].isdigit()` (Python `isdigit` is
false on the empty string). -/
def isUserFolder (s : String) : Bool :=
  strStarts s ("user") && !(s.data.drop 4).isEmpty && (s.data.drop 4).all Char.isDigit

/-- Ordering by numeric suffix, the sort key `int(x[4:])` of
`user_folders.sort(key=lambda x: int(x[4:]))`. -/
def byNum (a b : String) : Prop := numSuffix a ≤ numSuffix b

instance : DecidableRel byNum := fun a b => Nat.decLe (numSuffix a) (numSuffix b)

instance : IsTotal String byNum := ⟨fun a b => Nat.le_total (numSuffix a) (numSuffix b)⟩

instance : IsTrans String byNum := ⟨fun _ _ _ h h2 => Nat.le_trans h h2⟩

/-- `list.sort(key=lambda x: int(x[4:]))` — a stable ascending sort by
numeric suffix. -/
def sortByNum (l : List String) : List String :=
  List.insertionSort byNum l

/-- `list_user_folders_s3` (lines 293-324): keep the common-prefix
names matching the `user<N>` convention and sort them by numeric
suffix ascending. The input is the list of folder names derived from
the listing's `CommonPrefixes`. -/
def list_user_folders_s3 (names : List String) : List String :=
  sortByNum (names.filter isUserFolder)

/-- `list_user_folders_mount` (lines 326-342): same filter over the
directory entries of the mount root, each entry carrying its name and
its `is_dir()` flag. -/
def list_user_folders_mount (entries : List (String × Bool)) : List String :=
  sortByNum ((entries.filter (fun e => e.2 && isUserFolder e.1)).map Prod.fst)

/-- Result of fetching a folder's `taken_by.txt` object from S3:
`get_object` either succeeds with the object body, raises `NoSuchKey`,
raises `AccessDenied`, or raises some other error. -/
inductive MarkerFetch where
  | notFound
  | content (s : String)
  | accessDenied
  | otherError
deriving DecidableEq, Repr

/-- Result of reading a folder's `taken_by.txt` file on the mount:
the file is absent, readable with some content, or raises on read. -/
inductive MountMarker where
  | absent
  | content (s : String)
  | readError
deriving DecidableEq, Repr

/-- `check_user_taken_s3` (lines 344-371): `(False, None)` on
`NoSuchKey`; `(True, body.strip())` on success;
`(True, "access_denied")` on `AccessDenied`; `(True, "error")` on any
other failure. -/
def check_user_taken_s3 : MarkerFetch → Bool × Option String
  | MarkerFetch.notFound => (false, none)
  | MarkerFetch.content s => (true, some (strTrim s))
  | MarkerFetch.accessDenied => (true, some ("access_denied"))
  | MarkerFetch.otherError => (true, some ("error"))

/-- `check_user_taken_mount` (lines 373-386): `(False, None)` when the
file does not exist; `(True, text.strip())` when readable;
`(True, "error")` when the read raises. -/
def check_user_taken_mount : MountMarker → Bool × Option String
  | MountMarker.absent => (false, none)
  | MountMarker.content s => (true, some (strTrim s))
  | MountMarker.readError => (true, some ("error"))

/-- State of the S3 backend as the script observes it: the folder
names under `ibd_root/`, each folder's marker-fetch behaviour, and
whether a `put_object` of that folder's marker would succeed. -/
structure S3State where
  folders : List String
  markers : String → MarkerFetch
  putOk : String → Bool

/-- State of the mounted filesystem at `C:/s3_bucket/ibd_root`:
existence and directory-ness of the mount root, its directory entries
(name, `is_dir()`), each folder's marker-read behaviour, and whether
writing a marker there would succeed. -/
structure MountState where
  present : Bool
  isDir : Bool
  entries : List (String × Bool)
  markers : String → MountMarker
  writeOk : String → Bool

/-- Local `C:/AppStreamUsers` filesystem: whether writing the local
`taken_by.txt` of a folder succeeds, and the per-folder file content. -/
structure LocalState where
  ok : String → Bool
  files : String → Option String

/-- Whole world the resolver runs against: `s3 = none` models
`initialize_s3_client` returning `None` (S3 unreachable); `clock`
counts `datetime.now()` calls. -/
structure World where
  s3 : Option S3State
  mount : MountState
  fs : LocalState
  clock : Nat

/-- `check_s3_mount_available` (lines 279-291): the mount path is
returned only when it exists, is a directory and has at least one
entry; otherwise `None`. -/
def check_s3_mount_available (m : MountState) : Option String :=
  if m.present && m.isDir then
    if !m.entries.isEmpty then some ("C:/s3_bucket/ibd_root") else none
  else none

/-- `claim_user_folder_s3` (lines 388-424): compose the S3 marker body
`<username>\nClaimed at: <now>`, `put_object` it (failure is caught and
returns `False` with nothing written), then write the local marker
`<folder>\n<username>\nClaimed at: <now>`; a local write failure is
caught and returns `False`, but the S3 marker stays written. Returns
the flag together with the updated S3, local and clock state. -/
def claim_user_folder_s3 (now : Nat → String) (folder user : String)
    (s : S3State) (fs : LocalState) (k : Nat) :
    Bool × S3State × LocalState × Nat :=
  let c1 := user ++ ("\nClaimed at: ") ++ now k
  if s.putOk folder then
    let s2 : S3State :=
      { s with markers := fun g => if g = folder then MarkerFetch.content c1 else s.markers g }
    let c2 := folder ++ ("\n") ++ user ++ ("\nClaimed at: ") ++ now (k + 1)
    if fs.ok folder then
      let fs2 : LocalState :=
        { fs with files := fun g => if g = folder then some c2 else fs.files g }
      (true, s2, fs2, k + 2)
    else (false, s2, fs, k + 2)
  else (false, s, fs, k + 1)

/-- `claim_user_folder_mount` (lines 426-449): write the marker
`<username>\nClaimed at: <now>` on the mount, then the local marker;
any failure is caught and returns `False` (a local failure after a
successful mount write leaves the mount marker in place). -/
def claim_user_folder_mount (now : Nat → String) (folder user : String)
    (m : MountState) (fs : LocalState) (k : Nat) :
    Bool × MountState × LocalState × Nat :=
  let c1 := user ++ ("\nClaimed at: ") ++ now k
  if m.writeOk folder then
    let m2 : MountState :=
      { m with markers := fun g => if g = folder then MountMarker.content c1 else m.markers g }
    let c2 := folder ++ ("\n") ++ user ++ ("\nClaimed at: ") ++ now (k + 1)
    if fs.ok folder then
      let fs2 : LocalState :=
        { fs with files := fun g => if g = folder then some c2 else fs.files g }
      (true, m2, fs2, k + 2)
    else (false, m2, fs, k + 2)
  else (false, m, fs, k + 1)

/-- `ensure_local_taken_by_file` (lines 451-463): (re)write the local
marker `<folder>\n<username>\nClaimed at: <now>`; failures are caught
and reported as `False`. -/
def ensure_local_taken_by_file (now : Nat → String) (folder user : String)
    (fs : LocalState) (k : Nat) : Bool × LocalState × Nat :=
  let c := folder ++ ("\n") ++ user ++ ("\nClaimed at: ") ++ now k
  if fs.ok folder then
    (true, { fs with files := fun g => if g = folder then some c else fs.files g }, k + 1)
  else (false, fs, k + 1)

/-- The pass-1 ownership test of `find_and_assign_user` (lines
671-677): `is_taken and taken_by_content and
taken_by_content.split('\n')[0].strip().lower() == current_username`
(`taken_by_content` is truthy iff it is a non-empty string). -/
def ownerMatches (user : String) (r : Bool × Option String) : Bool :=
  r.1 && (match r.2 with
    | none => false
    | some c => !(c == ("")) && strLower (strTrim (firstLine c)) == user)

/-- Pass 1 of the S3 workflow (lines 669-681): first folder, in
enumeration order, whose marker's first line names the current user. -/
def s3Pass1 (user : String) (s : S3State) : List String → Option String
  | [] => none
  | f :: rest =>
    if ownerMatches user (check_user_taken_s3 (s.markers f)) then some f
    else s3Pass1 user s rest

/-- Pass 2 of the S3 workflow (lines 683-692): first folder observed
unclaimed is claimed; on claim failure the loop continues with the
next folders (state mutated by the failed claim is kept). -/
def s3Pass2 (user : String) (now : Nat → String) :
    S3State → LocalState → Nat → List String → Option String × S3State × LocalState × Nat
  | s, fs, k, [] => (none, s, fs, k)
  | s, fs, k, f :: rest =>
    if (check_user_taken_s3 (s.markers f)).1 then s3Pass2 user now s fs k rest
    else
      match claim_user_folder_s3 now f user s fs k with
      | (true, s2, fs2, k2) => (some f, s2, fs2, k2)
      | (false, s2, fs2, k2) => s3Pass2 user now s2 fs2 k2 rest

/-- Pass 1 of the mount workflow (lines 709-721). -/
def mountPass1 (user : String) (m : MountState) : List String → Option String
  | [] => none
  | f :: rest =>
    if ownerMatches user (check_user_taken_mount (m.markers f)) then some f
    else mountPass1 user m rest

/-- Pass 2 of the mount workflow (lines 723-732). -/
def mountPass2 (user : String) (now : Nat → String) :
    MountState → LocalState → Nat → List String → Option String × MountState × LocalState × Nat
  | m, fs, k, [] => (none, m, fs, k)
  | m, fs, k, f :: rest =>
    if (check_user_taken_mount (m.markers f)).1 then mountPass2 user now m fs k rest
    else
      match claim_user_folder_mount now f user m fs k with
      | (true, m2, fs2, k2) => (some f, m2, fs2, k2)
      | (false, m2, fs2, k2) => mountPass2 user now m2 fs2 k2 rest

/-- The S3 half of `find_and_assign_user` (lines 663-695): when the S3
client is available, enumerate, run pass 1 (a hit re-writes the local
marker via `ensure_local_taken_by_file`, return value ignored), else
run pass 2. When the client is `None` nothing happens. -/
def s3Phase (user : String) (now : Nat → String) (w : World) : Option String × World :=
  match w.s3 with
  | none => (none, w)
  | some s =>
    let folders := list_user_folders_s3 s.folders
    match s3Pass1 user s folders with
    | some f =>
      let r := ensure_local_taken_by_file now f user w.fs w.clock
      (some f, { w with fs := r.2.1, clock := r.2.2 })
    | none =>
      let r := s3Pass2 user now s w.fs w.clock folders
      (r.1, { w with s3 := some r.2.1, fs := r.2.2.1, clock := r.2.2.2 })

/-- The mount half of `find_and_assign_user` (lines 697-732): entered
with no assignment yet; when `check_s3_mount_available` yields no path
the whole block is skipped, otherwise enumerate and run the two
passes against the mount. -/
def mountPhase (user : String) (now : Nat → String) (w : World) : Option String × World :=
  match check_s3_mount_available w.mount with
  | none => (none, w)
  | some _ =>
    let folders := list_user_folders_mount w.mount.entries
    match mountPass1 user w.mount folders with
    | some f =>
      let r := ensure_local_taken_by_file now f user w.fs w.clock
      (some f, { w with fs := r.2.1, clock := r.2.2 })
    | none =>
      let r := mountPass2 user now w.mount w.fs w.clock folders
      (r.1, { w with mount := r.2.1, fs := r.2.2.1, clock := r.2.2.2 })

/-- `find_and_assign_user` (lines 643-742): the S3 workflow runs first;
the mount fallback block runs exactly when it produced no assignment
(`if not assigned_user:`); with no assignment from either the function
returns `None`. -/
def find_and_assign_user (user : String) (now : Nat → String) (w : World) :
    Option String × World :=
  match s3Phase user now w with
  | (some f, w1) => (some f, w1)
  | (none, w1) => mountPhase user now w1

/-- A remote object of a folder listing: its key and its
`LastModified` timestamp (modelled as a `Nat`). -/
structure RemoteObj where
  key : String
  mtime : Nat
deriving DecidableEq, Repr

/-- Eligibility filter of `sync_s3_to_local` (line 486): skip keys
ending in `/` (directory markers) and keys ending in `taken_by.txt`
(claim markers). -/
def eligibleSync (k : String) : Bool :=
  !(strEnds k ("/")) && !(strEnds k ("taken_by.txt"))

/-- `sync_s3_to_local` of `user_assignment_script.py` (lines 465-526):
every eligible object is downloaded unconditionally; a failed download
is caught, counted and the loop continues. The `downloaded_files` and
`failed_files` counters are modelled as the lists of affected keys
(the counters are their lengths). `dlOk` tells which downloads
succeed. -/
def sync_s3_to_local (dlOk : String → Bool) : List RemoteObj → List String × List String
  | [] => ([], [])
  | o :: rest =>
    if eligibleSync o.key then
      let r := sync_s3_to_local dlOk rest
      if dlOk o.key then (o.key :: r.1, r.2) else (r.1, o.key :: r.2)
    else sync_s3_to_local dlOk rest

/-- Eligibility filter of `sync_s3_to_local_boto3` (line 189): skip
keys ending in `/` and keys containing `.folder_info.json`; claim
markers (`taken_by.txt`) are NOT excluded there. -/
def eligibleBoto3 (k : String) : Bool :=
  !(strEnds k ("/")) && !(strHas k (".folder_info.json"))

/-- The download decision of `sync_s3_to_local_boto3` (lines 199-204):
download when no local counterpart exists, or when the remote
`LastModified` is strictly newer than the local mtime. `localM` maps a
key to the local counterpart's mtime when it exists. -/
def shouldDownload (localM : String → Option Nat) (o : RemoteObj) : Bool :=
  match localM o.key with
  | none => true
  | some lm => decide (lm < o.mtime)

/-- `sync_s3_to_local_boto3` of `create_user_home.py` (lines 163-229):
eligible objects are downloaded when `shouldDownload`, otherwise
counted as skipped; a download failure raises and, with no per-file
handler, aborts the whole sync (`Except.error`). Returns the
downloaded and skipped key lists. -/
def sync_s3_to_local_boto3 (localM : String → Option Nat) (dlOk : String → Bool) :
    List RemoteObj → Except Unit (List String × List String)
  | [] => Except.ok ([], [])
  | o :: rest =>
    if eligibleBoto3 o.key then
      if shouldDownload localM o then
        if dlOk o.key then
          match sync_s3_to_local_boto3 localM dlOk rest with
          | Except.ok r => Except.ok (o.key :: r.1, r.2)
          | Except.error e => Except.error e
        else Except.error ()
      else
        match sync_s3_to_local_boto3 localM dlOk rest with
        | Except.ok r => Except.ok (r.1, o.key :: r.2)
        | Except.error e => Except.error e
    else sync_s3_to_local_boto3 localM dlOk rest

/-- Marker store of the S3 backend inside a world, with a sentinel for the
unreachable case; used to state where remote claim markers end up. -/
def s3MarkersOf (w : World) (g : String) : MarkerFetch :=
  match w.s3 with
  | some s => s.markers g
  | none => MarkerFetch.otherError

/-! ## Concrete scenario states -/

/-- Constant timestamp clock used by the concrete scenarios. -/
def nowConst : Nat → String := fun _ => ("T")

/-- A mount that is not present, for scenarios exercising the S3 workflow. -/
def mountOff : MountState :=
  { present := false, isDir := false, entries := [],
    markers := fun _ => MountMarker.absent, writeOk := fun _ => true }

/-- A local filesystem where every write succeeds and no file exists yet. -/
def fsOk : LocalState := { ok := fun _ => true, files := fun _ => none }

/-- S3 state of the idempotence scenario: `user1` is claimed by `bob`,
`user2` by `alice`, `user3` unclaimed. -/
def s3Owned : S3State :=
  { folders := [("user1"), ("user2"), ("user3")],
    markers := fun g =>
      if g = ("user1") then MarkerFetch.content ("bob\nClaimed at: old")
      else if g = ("user2") then MarkerFetch.content ("alice\nClaimed at: old")
      else MarkerFetch.notFound,
    putOk := fun _ => true }

/-- World of the idempotence scenario. -/
def wOwned : World := { s3 := some s3Owned, mount := mountOff, fs := fsOk, clock := 0 }

/-- S3 state of the first pass-2 scenario: `user1..user3` claimed by `bob`,
`user4` unclaimed. -/
def s3Others : S3State :=
  { folders := [("user1"), ("user2"), ("user3"), ("user4")],
    markers := fun g =>
      if g = ("user4") then MarkerFetch.notFound
      else MarkerFetch.content ("bob\nClaimed at: old"),
    putOk := fun _ => true }

/-- World of the first pass-2 scenario. -/
def wOthers : World := { s3 := some s3Others, mount := mountOff, fs := fsOk, clock := 0 }

/-- S3 state of the second pass-2 scenario: `user1` and `user2` both
unclaimed (listed out of order). -/
def s3Free2 : S3State :=
  { folders := [("user2"), ("user1")],
    markers := fun _ => MarkerFetch.notFound,
    putOk := fun _ => true }

/-- World of the second pass-2 scenario. -/
def wFree2 : World := { s3 := some s3Free2, mount := mountOff, fs := fsOk, clock := 0 }

/-- A present, non-empty mount whose single folder `user1` is unclaimed. -/
def mountOn1 : MountState :=
  { present := true, isDir := true, entries := [(("user1"), true)],
    markers := fun _ => MountMarker.absent, writeOk := fun _ => true }

/-- World of the failover scenario: the S3 client is available (reachable
backend) but `ibd_root/` holds no user folders; the mount is present with a
free `user1`. -/
def wReachableEmpty : World :=
  { s3 := some { folders := [], markers := fun _ => MarkerFetch.notFound,
                 putOk := fun _ => true },
    mount := mountOn1, fs := fsOk, clock := 0 }

/-- S3 state of the non-atomic-claim scenario: both folders unclaimed,
remote puts succeed. -/
def s3Half : S3State :=
  { folders := [("user1"), ("user2")],
    markers := fun _ => MarkerFetch.notFound,
    putOk := fun _ => true }

/-- Local filesystem whose write fails for `user1` only. -/
def fsHalf : LocalState :=
  { ok := fun g => !(g == ("user1")), files := fun _ => none }

/-- World of the non-atomic-claim scenario. -/
def wHalfFail : World :=
  { s3 := some s3Half, mount := mountOff, fs := fsHalf, clock := 0 }

/-- A mount root that exists and is a directory but holds no entry at all. -/
def mountEmptyDir : MountState :=
  { present := true, isDir := true, entries := [],
    markers := fun _ => MountMarker.absent, writeOk := fun _ => true }

/-- World with S3 unreachable and an existing-but-empty mount root. -/
def wMountEmpty : World :=
  { s3 := none, mount := mountEmptyDir, fs := fsOk, clock := 0 }

/-! ## Helper lemmas -/

lemma sortByNum_sorted (l : List String) : (sortByNum l).Sorted byNum :=
  List.sorted_insertionSort byNum l

lemma sortByNum_perm (l : List String) : List.Perm (sortByNum l) l :=
  List.perm_insertionSort byNum l

lemma find?_min_of_sorted {p : String → Bool} :
    ∀ {l : List String}, l.Sorted byNum → ∀ {x : String}, l.find? p = some x →
      ∀ y ∈ l, p y = true → numSuffix x ≤ numSuffix y := by
  intro l
  induction l with
  | nil => intro _ x hx; simp [List.find?] at hx
  | cons a t ih =>
    intro hs x hx y hy hpy
    rcases List.sorted_cons.1 hs with ⟨ha, ht⟩
    rcases List.mem_cons.1 hy with rfl | hyt
    · cases hpa : p y with
      | true =>
        rw [List.find?_cons_of_pos _ hpa] at hx
        cases hx; exact Nat.le_refl _
      | false =>
        rw [List.find?_cons_of_neg _ (by simp [hpa])] at hx
        rw [hpa] at hpy; cases hpy
    · cases hpa : p a with
      | true =>
        rw [List.find?_cons_of_pos _ hpa] at hx
        cases hx; exact ha y hyt
      | false =>
        rw [List.find?_cons_of_neg _ (by simp [hpa])] at hx
        exact ih ht hx y hyt hpy

lemma s3Pass1_eq_none (user : String) (s : S3State) :
    ∀ l : List String,
      (∀ g ∈ l, ownerMatches user (check_user_taken_s3 (s.markers g)) = false) →
      s3Pass1 user s l = none := by
  intro l
  induction l with
  | nil => intro _; rfl
  | cons a t ih =>
    intro h
    have ha := h a (List.mem_cons_self a t)
    simp only [s3Pass1, ha, Bool.false_eq_true, if_false]
    exact ih (fun g hg => h g (List.mem_cons_of_mem a hg))

lemma s3Pass1_first (user : String) (s : S3State) (f : String) :
    ∀ l : List String, f ∈ l →
      ownerMatches user (check_user_taken_s3 (s.markers f)) = true →
      (∀ g ∈ l, g ≠ f → ownerMatches user (check_user_taken_s3 (s.markers g)) = false) →
      s3Pass1 user s l = some f := by
  intro l
  induction l with
  | nil => intro h; cases h
  | cons a t ih =>
    intro hmem hown huniq
    by_cases haf : a = f
    · subst haf
      simp only [s3Pass1, hown, if_true]
    · have ha := huniq a (List.mem_cons_self a t) haf
      simp only [s3Pass1, ha, Bool.false_eq_true, if_false]
      have hft : f ∈ t := by
        rcases List.mem_cons.1 hmem with h | h
        · exact absurd h.symm haf
        · exact h
      exact ih hft hown (fun g hg hgf => huniq g (List.mem_cons_of_mem a hg) hgf)

lemma s3Pass2_reliable (user : String) (now : Nat → String) (s : S3State) (fs : LocalState)
    (hput : ∀ g, s.putOk g = true) (hok : ∀ g, fs.ok g = true) :
    ∀ (k : Nat) (l : List String),
      s3Pass2 user now s fs k l =
        match l.find? (fun g => !(check_user_taken_s3 (s.markers g)).1) with
        | none => (none, s, fs, k)
        | some f => (some f, (claim_user_folder_s3 now f user s fs k).2) := by
  intro k l
  induction l with
  | nil => rfl
  | cons a t ih =>
    by_cases hta : (check_user_taken_s3 (s.markers a)).1 = true
    · rw [List.find?_cons_of_neg (p := fun g => !(check_user_taken_s3 (s.markers g)).1) t
        (by simp [hta])]
      simpa [s3Pass2, hta] using ih
    · have hfa : (check_user_taken_s3 (s.markers a)).1 = false := by
        cases h : (check_user_taken_s3 (s.markers a)).1
        · rfl
        · exact absurd h hta
      rw [List.find?_cons_of_pos (p := fun g => !(check_user_taken_s3 (s.markers g)).1) t
        (by simp [hfa])]
      simp only [s3Pass2, hfa, Bool.false_eq_true, if_false]
      simp [claim_user_folder_s3, hput a, hok a]

lemma s3Phase_mount (user : String) (now : Nat → String) (w : World) :
    ((s3Phase user now w).2).mount = w.mount := by
  unfold s3Phase
  cases w.s3 with
  | none => rfl
  | some s =>
    cases h1 : s3Pass1 user s (list_user_folders_s3 s.folders) with
    | some f => simp [h1]
    | none => simp [h1]

lemma mountPhase_s3 (user : String) (now : Nat → String) (w : World) :
    ((mountPhase user now w).2).s3 = w.s3 := by
  unfold mountPhase
  cases check_s3_mount_available w.mount with
  | none => rfl
  | some p =>
    cases h1 : mountPass1 user w.mount (list_user_folders_mount w.mount.entries) with
    | some f => simp [h1]
    | none => simp [h1]

lemma find_eq_of_s3Phase_some {user : String} {now : Nat → String} {w : World}
    {f : String} {w1 : World} (h : s3Phase user now w = (some f, w1)) :
    find_and_assign_user user now w = (some f, w1) := by
  unfold find_and_assign_user
  rw [h]

lemma find_eq_of_s3Phase_none {user : String} {now : Nat → String} {w : World}
    {w1 : World} (h : s3Phase user now w = (none, w1)) :
    find_and_assign_user user now w = mountPhase user now w1 := by
  unfold find_and_assign_user
  rw [h]

lemma s3Pass2_reliable_some {user : String} {now : Nat → String} {s : S3State}
    {fs : LocalState} {k : Nat} {l : List String} {f : String}
    (hput : ∀ g, s.putOk g = true) (hok : ∀ g, fs.ok g = true)
    (hfirst : l.find? (fun g => !(check_user_taken_s3 (s.markers g)).1) = some f) :
    s3Pass2 user now s fs k l = (some f, (claim_user_folder_s3 now f user s fs k).2) := by
  rw [s3Pass2_reliable user now s fs hput hok k l, hfirst]

lemma s3Phase_pass1_hit {user : String} {now : Nat → String} {w : World} {s : S3State}
    {f : String} (hs3 : w.s3 = some s)
    (hp1 : s3Pass1 user s (list_user_folders_s3 s.folders) = some f) :
    s3Phase user now w =
      (some f, { w with fs := (ensure_local_taken_by_file now f user w.fs w.clock).2.1,
                        clock := (ensure_local_taken_by_file now f user w.fs w.clock).2.2 }) := by
  unfold s3Phase
  rw [hs3]
  simp [hp1]

lemma s3Phase_pass2 {user : String} {now : Nat → String} {w : World} {s : S3State}
    (hs3 : w.s3 = some s)
    (hp1 : s3Pass1 user s (list_user_folders_s3 s.folders) = none) :
    s3Phase user now w =
      ((s3Pass2 user now s w.fs w.clock (list_user_folders_s3 s.folders)).1,
       { w with
         s3 := some (s3Pass2 user now s w.fs w.clock (list_user_folders_s3 s.folders)).2.1,
         fs := (s3Pass2 user now s w.fs w.clock (list_user_folders_s3 s.folders)).2.2.1,
         clock := (s3Pass2 user now s w.fs w.clock (list_user_folders_s3 s.folders)).2.2.2 }) := by
  unfold s3Phase
  rw [hs3]
  simp [hp1]

lemma countP_split {α : Type} (a b : α → Bool) : ∀ l : List α,
    (l.filter (fun o => a o && b o)).length + (l.filter (fun o => a o && !(b o))).length
      = l.countP a := by
  intro l
  induction l with
  | nil => rfl
  | cons x t ih =>
    cases hax : a x <;> cases hbx : b x <;>
      simp [hax, hbx, List.countP_cons, ih] <;> omega

lemma sync_s3_to_local_spec (dlOk : String → Bool) : ∀ objs : List RemoteObj,
    (sync_s3_to_local dlOk objs).1
        = (objs.filter (fun o => eligibleSync o.key && dlOk o.key)).map RemoteObj.key
    ∧ (sync_s3_to_local dlOk objs).2
        = (objs.filter (fun o => eligibleSync o.key && !(dlOk o.key))).map RemoteObj.key := by
  intro objs
  induction objs with
  | nil => exact ⟨rfl, rfl⟩
  | cons o t ih =>
    cases he : eligibleSync o.key <;> cases hd : dlOk o.key <;>
      simp [sync_s3_to_local, he, hd, ih.1, ih.2]

lemma sync_boto3_all_ok (localM : String → Option Nat) : ∀ objs : List RemoteObj,
    sync_s3_to_local_boto3 localM (fun _ => true) objs
      = Except.ok
          ((objs.filter (fun o => eligibleBoto3 o.key && shouldDownload localM o)).map RemoteObj.key,
           (objs.filter (fun o => eligibleBoto3 o.key && !(shouldDownload localM o))).map RemoteObj.key) := by
  intro objs
  induction objs with
  | nil => rfl
  | cons o t ih =>
    cases he : eligibleBoto3 o.key <;> cases hd : shouldDownload localM o <;>
      simp [sync_s3_to_local_boto3, he, hd, ih]

/-! ## Claim theorems -/

/-- C6: both enumerations return exactly the names matching the `user<N>`
convention (same multiset as the convention filter) sorted ascending by the
numeric suffix, not lexicographically; in particular `{user1, user3, user10}`
enumerates as `[user1, user3, user10]` in any input order. -/
theorem enumeration_numeric_order :
    (∀ names : List String,
      (list_user_folders_s3 names).Sorted byNum
      ∧ List.Perm (list_user_folders_s3 names) (names.filter isUserFolder))
    ∧ (∀ entries : List (String × Bool),
      (list_user_folders_mount entries).Sorted byNum
      ∧ List.Perm (list_user_folders_mount entries)
          ((entries.filter (fun e => e.2 && isUserFolder e.1)).map Prod.fst))
    ∧ list_user_folders_s3 [("user1"), ("user3"), ("user10")]
        = [("user1"), ("user3"), ("user10")]
    ∧ list_user_folders_s3 [("user10"), ("user3"), ("user1")]
        = [("user1"), ("user3"), ("user10")]
    ∧ list_user_folders_mount [(("user10"), true), (("user1"), true), (("user3"), true)]
        = [("user1"), ("user3"), ("user10")] :=
  ⟨fun names => ⟨sortByNum_sorted (names.filter isUserFolder),
     sortByNum_perm (names.filter isUserFolder)⟩,
   fun entries => ⟨sortByNum_sorted _, sortByNum_perm _⟩,
   by decide, by decide, by decide⟩

/-- C4: the claim-status checks report `(false, none)` exactly when the
marker is absent, and report any folder whose marker exists as claimed; a
marker that exists but cannot be read (permission denied or any other read
error) yields an owner sentinel, never availability. -/
theorem unreadable_marker_reported_claimed :
    (∀ m : MarkerFetch, check_user_taken_s3 m = (false, none) ↔ m = MarkerFetch.notFound)
    ∧ check_user_taken_s3 MarkerFetch.accessDenied = (true, some ("access_denied"))
    ∧ check_user_taken_s3 MarkerFetch.otherError = (true, some ("error"))
    ∧ (∀ m : MarkerFetch, m ≠ MarkerFetch.notFound → (check_user_taken_s3 m).1 = true)
    ∧ (∀ m : MountMarker, check_user_taken_mount m = (false, none) ↔ m = MountMarker.absent)
    ∧ check_user_taken_mount MountMarker.readError = (true, some ("error"))
    ∧ (∀ m : MountMarker, m ≠ MountMarker.absent → (check_user_taken_mount m).1 = true) := by
  refine ⟨?_, rfl, rfl, ?_, ?_, rfl, ?_⟩
  · intro m; cases m <;> simp [check_user_taken_s3]
  · intro m h; cases m <;> simp [check_user_taken_s3] at h ⊢
  · intro m; cases m <;> simp [check_user_taken_mount]
  · intro m h; cases m <;> simp [check_user_taken_mount] at h ⊢

/-- C4 witness: the theorem applied at the unreadable-marker cases. -/
theorem unreadable_marker_reported_claimed_witness :
    (check_user_taken_s3 MarkerFetch.accessDenied).1 = true
    ∧ (check_user_taken_mount MountMarker.readError).1 = true :=
  ⟨unreadable_marker_reported_claimed.2.2.2.1 MarkerFetch.accessDenied (by decide),
   unreadable_marker_reported_claimed.2.2.2.2.2.2 MountMarker.readError (by decide)⟩

/-- C1: when the current identity already owns exactly one marker among the
enumerated folders (first line of the marker, lowercased, equals the
identity), the resolver's pass 1 returns that folder, the S3 marker store is
left unchanged (no claim is written for any other folder), the mount backend
is untouched, and a second run with no intervening change returns the same
folder. -/
theorem resolver_idempotent_on_existing_assignment
    (w : World) (s : S3State) (user f : String) (now : Nat → String)
    (hs3 : w.s3 = some s)
    (hf : f ∈ list_user_folders_s3 s.folders)
    (hown : ownerMatches user (check_user_taken_s3 (s.markers f)) = true)
    (huniq : ∀ g ∈ list_user_folders_s3 s.folders, g ≠ f →
      ownerMatches user (check_user_taken_s3 (s.markers g)) = false) :
    (find_and_assign_user user now w).1 = some f
    ∧ ((find_and_assign_user user now w).2).s3 = some s
    ∧ ((find_and_assign_user user now w).2).mount = w.mount
    ∧ (find_and_assign_user user now ((find_and_assign_user user now w).2)).1 = some f := by
  have hp1 : s3Pass1 user s (list_user_folders_s3 s.folders) = some f :=
    s3Pass1_first user s f _ hf hown huniq
  have hfind := find_eq_of_s3Phase_some (@s3Phase_pass1_hit user now w s f hs3 hp1)
  have h1 : (find_and_assign_user user now w).1 = some f := by rw [hfind]
  have h2 : ((find_and_assign_user user now w).2).s3 = some s := by rw [hfind]; exact hs3
  have h3 : ((find_and_assign_user user now w).2).mount = w.mount := by rw [hfind]
  have hfind2 := find_eq_of_s3Phase_some
    (@s3Phase_pass1_hit user now ((find_and_assign_user user now w).2) s f h2 hp1)
  exact ⟨h1, h2, h3, by rw [hfind2]⟩

/-- C1 witness: in the concrete idempotence scenario `alice` holds the
marker of `user2` only; the resolver returns `user2`, leaves the backend
marker store unchanged, and returns `user2` again on a second run. -/
theorem resolver_idempotent_on_existing_assignment_witness :
    (find_and_assign_user ("alice") nowConst wOwned).1 = some ("user2")
    ∧ ((find_and_assign_user ("alice") nowConst wOwned).2).s3 = some s3Owned
    ∧ (find_and_assign_user ("alice") nowConst
        ((find_and_assign_user ("alice") nowConst wOwned).2)).1 = some ("user2") := by
  have h := resolver_idempotent_on_existing_assignment wOwned s3Owned ("alice") ("user2")
    nowConst rfl (by decide) (by decide) (by decide)
  exact ⟨h.1, h.2.1, h.2.2.2⟩

/-- C2: when the current identity owns no marker among the enumerated
folders and the backend writes succeed, pass 2 claims exactly the first
unclaimed folder of the enumeration — the unclaimed folder with the
smallest numeric suffix — and the remote marker store changes at that
folder only; the mount backend is untouched. -/
theorem resolver_claims_first_unclaimed
    (w : World) (s : S3State) (user f : String) (now : Nat → String)
    (hs3 : w.s3 = some s)
    (hput : ∀ g, s.putOk g = true)
    (hok : ∀ g, w.fs.ok g = true)
    (hnoown : ∀ g ∈ list_user_folders_s3 s.folders,
      ownerMatches user (check_user_taken_s3 (s.markers g)) = false)
    (hfirst : (list_user_folders_s3 s.folders).find?
        (fun g => !(check_user_taken_s3 (s.markers g)).1) = some f) :
    (find_and_assign_user user now w).1 = some f
    ∧ (check_user_taken_s3 (s.markers f)).1 = false
    ∧ (∀ g ∈ list_user_folders_s3 s.folders,
        (check_user_taken_s3 (s.markers g)).1 = false → numSuffix f ≤ numSuffix g)
    ∧ s3MarkersOf ((find_and_assign_user user now w).2) f
        = MarkerFetch.content (user ++ ("\nClaimed at: ") ++ now w.clock)
    ∧ (∀ g, g ≠ f → s3MarkersOf ((find_and_assign_user user now w).2) g = s.markers g)
    ∧ ((find_and_assign_user user now w).2).mount = w.mount := by
  have hp1 : s3Pass1 user s (list_user_folders_s3 s.folders) = none :=
    s3Pass1_eq_none user s _ hnoown
  have hfree : (check_user_taken_s3 (s.markers f)).1 = false := by
    have := List.find?_some hfirst
    simpa using this
  have hclaim : claim_user_folder_s3 now f user s w.fs w.clock
      = (true,
         { s with markers := fun g =>
             if g = f then MarkerFetch.content (user ++ ("\nClaimed at: ") ++ now w.clock)
             else s.markers g },
         { w.fs with files := fun g =>
             if g = f then some (f ++ ("\n") ++ user ++ ("\nClaimed at: ") ++ now (w.clock + 1))
             else w.fs.files g },
         w.clock + 2) := by
    simp [claim_user_folder_s3, hput f, hok f]
  have hr := @s3Pass2_reliable_some user now s w.fs w.clock (list_user_folders_s3 s.folders) f hput hok hfirst
  rw [hclaim] at hr
  have hphase := @s3Phase_pass2 user now w s hs3 hp1
  rw [hr] at hphase
  have hfind := find_eq_of_s3Phase_some hphase
  have hmin : ∀ g ∈ list_user_folders_s3 s.folders,
      (check_user_taken_s3 (s.markers g)).1 = false → numSuffix f ≤ numSuffix g := by
    intro g hg hgf
    exact find?_min_of_sorted (sortByNum_sorted _) hfirst g hg (by simp [hgf])
  refine ⟨by rw [hfind], hfree, hmin, ?_, ?_, by rw [hfind]⟩
  · rw [hfind]
    simp [s3MarkersOf]
  · intro g hgf
    rw [hfind]
    simp [s3MarkersOf, hgf]

/-- C2 witness: with `user1..user3` claimed by `bob` the resolver claims
`user4` and changes no other folder's remote marker; with `user1` and
`user2` both unclaimed it claims `user1`. -/
theorem resolver_claims_first_unclaimed_witness :
    (find_and_assign_user ("alice") nowConst wOthers).1 = some ("user4")
    ∧ s3MarkersOf ((find_and_assign_user ("alice") nowConst wOthers).2) ("user4")
        = MarkerFetch.content (("alice") ++ ("\nClaimed at: ") ++ nowConst 0)
    ∧ s3MarkersOf ((find_and_assign_user ("alice") nowConst wOthers).2) ("user1")
        = s3Others.markers ("user1")
    ∧ (find_and_assign_user ("alice") nowConst wFree2).1 = some ("user1") := by
  have h1 := resolver_claims_first_unclaimed wOthers s3Others ("alice") ("user4") nowConst
    rfl (fun g => rfl) (fun g => rfl) (by decide) (by decide)
  have h2 := resolver_claims_first_unclaimed wFree2 s3Free2 ("alice") ("user1") nowConst
    rfl (fun g => rfl) (fun g => rfl) (by decide) (by decide)
  exact ⟨h1.1, h1.2.2.2.1, h1.2.2.2.2.1 ("user1") (by decide), h2.1⟩

/-- C3 counterexample: a reachable S3 backend (client present) holding no
user folders: the resolver still proceeds to the mount backend within the
same invocation, claims `user1` there and writes a mount claim marker. -/
theorem fallback_despite_reachable_s3 :
    (wReachableEmpty.s3).isSome = true
    ∧ (find_and_assign_user ("alice") nowConst wReachableEmpty).1 = some ("user1")
    ∧ wReachableEmpty.mount.markers ("user1") = MountMarker.absent
    ∧ ((find_and_assign_user ("alice") nowConst wReachableEmpty).2).mount.markers ("user1")
        ≠ MountMarker.absent :=
  ⟨rfl, by decide, rfl, by decide⟩

/-- C3 amended: the mount fallback is consulted exactly when the S3 phase
yields no assignment — not only when S3 is unreachable but also when it is
reachable and produces no folder; when the S3 phase yields an assignment
the resolver stops without touching the mount, and the S3 phase never
modifies the mount state (nor the mount phase the S3 state). -/
theorem fallback_iff_no_s3_assignment (w : World) (user : String) (now : Nat → String) :
    ((s3Phase user now w).2).mount = w.mount
    ∧ ((mountPhase user now w).2).s3 = w.s3
    ∧ (match s3Phase user now w with
       | (some f, w1) => find_and_assign_user user now w = (some f, w1)
       | (none, w1) => find_and_assign_user user now w = mountPhase user now w1) := by
  refine ⟨s3Phase_mount user now w, mountPhase_s3 user now w, ?_⟩
  rcases h : s3Phase user now w with ⟨a, w1⟩
  cases a with
  | some f => exact find_eq_of_s3Phase_some h
  | none => exact find_eq_of_s3Phase_none h

/-- C9: when the remote put of the marker succeeds but the subsequent local
marker write fails, `claim_user_folder_s3` reports failure while the remote
marker stays written; in the concrete scenario the resolver then moves on
and claims `user2`, leaving `alice` with remote markers on both `user1`
and `user2`. -/
theorem claim_failure_leaves_remote_marker
    (now : Nat → String) (folder user : String) (s : S3State) (fs : LocalState) (k : Nat)
    (hput : s.putOk folder = true) (hfail : fs.ok folder = false) :
    (claim_user_folder_s3 now folder user s fs k).1 = false
    ∧ (claim_user_folder_s3 now folder user s fs k).2.1.markers folder
        = MarkerFetch.content (user ++ ("\nClaimed at: ") ++ now k)
    ∧ (find_and_assign_user ("alice") nowConst wHalfFail).1 = some ("user2")
    ∧ s3MarkersOf ((find_and_assign_user ("alice") nowConst wHalfFail).2) ("user1")
        = MarkerFetch.content (("alice") ++ ("\nClaimed at: ") ++ nowConst 0)
    ∧ s3MarkersOf ((find_and_assign_user ("alice") nowConst wHalfFail).2) ("user2")
        = MarkerFetch.content (("alice") ++ ("\nClaimed at: ") ++ nowConst 2) := by
  refine ⟨by simp [claim_user_folder_s3, hput, hfail],
    by simp [claim_user_folder_s3, hput, hfail], by decide, by decide, by decide⟩

/-- C9 witness: the theorem applied to the concrete half-failing state. -/
theorem claim_failure_leaves_remote_marker_witness :
    (claim_user_folder_s3 nowConst ("user1") ("alice") s3Half fsHalf 0).1 = false
    ∧ (claim_user_folder_s3 nowConst ("user1") ("alice") s3Half fsHalf 0).2.1.markers ("user1")
        = MarkerFetch.content (("alice") ++ ("\nClaimed at: ") ++ nowConst 0) := by
  have h := claim_failure_leaves_remote_marker nowConst ("user1") ("alice") s3Half fsHalf 0
    (by decide) (by decide)
  exact ⟨h.1, h.2.1⟩

/-- C5 counterexample: the boto3 mirror does not exclude claim markers: a
lone remote `taken_by.txt` — which the claim's eligibility (no directory
marker, no claim marker) excludes — is downloaded, so transferred + skipped
is 1 while the claim's eligible-file count is 0. -/
theorem mirror_transfers_claim_marker :
    sync_s3_to_local_boto3 (fun _ => none) (fun _ => true)
        [{ key := ("ibd_root/user3/taken_by.txt"), mtime := 5 }]
      = Except.ok ([("ibd_root/user3/taken_by.txt")], [])
    ∧ List.countP (fun o => eligibleSync o.key)
        [({ key := ("ibd_root/user3/taken_by.txt"), mtime := 5 } : RemoteObj)] = 0 :=
  ⟨rfl, by decide⟩

/-- C5 amended: the timestamp-gated mirror is `sync_s3_to_local_boto3`,
whose eligibility excludes directory markers and `.folder_info.json`
metadata (claim markers stay eligible): with all downloads succeeding it
downloads an eligible file iff the local counterpart is absent or strictly
older, skips it otherwise, and downloaded + skipped equals its eligible
total; the assignment-script mirror `sync_s3_to_local` excludes directory
markers and claim markers but downloads every eligible file unconditionally,
with downloaded + failed equal to its eligible total. -/
theorem mirror_sync_characterization (localM : String → Option Nat)
    (dlOk : String → Bool) (objs : List RemoteObj) :
    sync_s3_to_local_boto3 localM (fun _ => true) objs
      = Except.ok
          ((objs.filter (fun o => eligibleBoto3 o.key && shouldDownload localM o)).map RemoteObj.key,
           (objs.filter (fun o => eligibleBoto3 o.key && !(shouldDownload localM o))).map RemoteObj.key)
    ∧ (match sync_s3_to_local_boto3 localM (fun _ => true) objs with
       | Except.ok r => r.1.length + r.2.length = objs.countP (fun o => eligibleBoto3 o.key)
       | Except.error _ => False)
    ∧ (sync_s3_to_local dlOk objs).1.length + (sync_s3_to_local dlOk objs).2.length
        = objs.countP (fun o => eligibleSync o.key) := by
  refine ⟨sync_boto3_all_ok localM objs, ?_, ?_⟩
  · rw [sync_boto3_all_ok localM objs]
    simpa using countP_split (fun o => eligibleBoto3 o.key) (fun o => shouldDownload localM o) objs
  · rw [(sync_s3_to_local_spec dlOk objs).1, (sync_s3_to_local_spec dlOk objs).2]
    simpa using countP_split (fun o => eligibleSync o.key) (fun o => dlOk o.key) objs

/-- C7: on a successful claim the remote marker body is the identity
followed by the `Claimed at:` timestamp line, while the locally persisted
mirror marker additionally has the folder identifier as its first line —
on both the S3 and the mount backend. -/
theorem claim_marker_formats
    (now : Nat → String) (folder user : String) (s : S3State) (m : MountState)
    (fs : LocalState) (k : Nat)
    (hput : s.putOk folder = true) (hw : m.writeOk folder = true)
    (hok : fs.ok folder = true) :
    (claim_user_folder_s3 now folder user s fs k).1 = true
    ∧ (claim_user_folder_s3 now folder user s fs k).2.1.markers folder
        = MarkerFetch.content (user ++ ("\nClaimed at: ") ++ now k)
    ∧ (claim_user_folder_s3 now folder user s fs k).2.2.1.files folder
        = some (folder ++ ("\n") ++ user ++ ("\nClaimed at: ") ++ now (k + 1))
    ∧ (claim_user_folder_mount now folder user m fs k).1 = true
    ∧ (claim_user_folder_mount now folder user m fs k).2.1.markers folder
        = MountMarker.content (user ++ ("\nClaimed at: ") ++ now k)
    ∧ (claim_user_folder_mount now folder user m fs k).2.2.1.files folder
        = some (folder ++ ("\n") ++ user ++ ("\nClaimed at: ") ++ now (k + 1)) := by
  refine ⟨?_, ?_, ?_, ?_, ?_, ?_⟩ <;>
    simp [claim_user_folder_s3, claim_user_folder_mount, hput, hw, hok]

/-- C7 witness: the theorem applied to a concrete claim of `user1` by
`alice` on both backends. -/
theorem claim_marker_formats_witness :
    (claim_user_folder_s3 nowConst ("user1") ("alice") s3Free2 fsOk 0).2.1.markers ("user1")
        = MarkerFetch.content (("alice") ++ ("\nClaimed at: ") ++ nowConst 0)
    ∧ (claim_user_folder_s3 nowConst ("user1") ("alice") s3Free2 fsOk 0).2.2.1.files ("user1")
        = some (("user1") ++ ("\n") ++ ("alice") ++ ("\nClaimed at: ") ++ nowConst 1)
    ∧ (claim_user_folder_mount nowConst ("user1") ("alice") mountOn1 fsOk 0).2.1.markers ("user1")
        = MountMarker.content (("alice") ++ ("\nClaimed at: ") ++ nowConst 0) := by
  have h := claim_marker_formats nowConst ("user1") ("alice") s3Free2 mountOn1 fsOk 0
    rfl rfl rfl
  exact ⟨h.2.1, h.2.2.1, h.2.2.2.2.1⟩

/-- C8: the assignment-script mirror is best-effort: the downloaded keys
are exactly the eligible keys whose transfer succeeds and the failed keys
exactly the eligible keys whose transfer fails — so a failure never aborts
the remaining transfers — and downloaded + failed equals the eligible
total; concretely, a failure on the middle file still transfers the later
file. -/
theorem mirror_best_effort (dlOk : String → Bool) (objs : List RemoteObj) :
    (sync_s3_to_local dlOk objs).1
        = (objs.filter (fun o => eligibleSync o.key && dlOk o.key)).map RemoteObj.key
    ∧ (sync_s3_to_local dlOk objs).2
        = (objs.filter (fun o => eligibleSync o.key && !(dlOk o.key))).map RemoteObj.key
    ∧ (sync_s3_to_local dlOk objs).1.length + (sync_s3_to_local dlOk objs).2.length
        = objs.countP (fun o => eligibleSync o.key)
    ∧ sync_s3_to_local (fun g => !(g == ("ibd_root/user1/b.dat")))
        [{ key := ("ibd_root/user1/a.dat"), mtime := 1 },
         { key := ("ibd_root/user1/b.dat"), mtime := 2 },
         { key := ("ibd_root/user1/c.dat"), mtime := 3 }]
      = ([("ibd_root/user1/a.dat"), ("ibd_root/user1/c.dat")], [("ibd_root/user1/b.dat")]) := by
  refine ⟨(sync_s3_to_local_spec dlOk objs).1, (sync_s3_to_local_spec dlOk objs).2, ?_, by decide⟩
  rw [(sync_s3_to_local_spec dlOk objs).1, (sync_s3_to_local_spec dlOk objs).2]
  simpa using countP_split (fun o => eligibleSync o.key) (fun o => dlOk o.key) objs

/-- C10: a mount root that exists but is empty is treated as an unavailable
backend: `check_s3_mount_available` yields the mount path exactly when the
root exists, is a directory and has at least one entry, and when it yields
`None` the resolver's mount phase does nothing at all. -/
theorem empty_mount_is_unavailable
    (m : MountState) (w : World) (user : String) (now : Nat → String) :
    check_s3_mount_available m
      = (if m.present && m.isDir && !m.entries.isEmpty
         then some ("C:/s3_bucket/ibd_root") else none)
    ∧ (check_s3_mount_available w.mount = none → mountPhase user now w = (none, w)) := by
  constructor
  · cases hp : m.present <;> cases hd : m.isDir <;> cases he : m.entries.isEmpty <;>
      simp [check_s3_mount_available, hp, hd, he]
  · intro h
    unfold mountPhase
    rw [h]

/-- C10 witness: the theorem applied to an existing-but-empty mount root:
the backend is unavailable and the mount phase of a world carrying it
leaves the world unchanged with no assignment. -/
theorem empty_mount_is_unavailable_witness :
    check_s3_mount_available mountEmptyDir = none
    ∧ mountPhase ("alice") nowConst wMountEmpty = (none, wMountEmpty) := by
  have h := empty_mount_is_unavailable mountEmptyDir wMountEmpty ("alice") nowConst
  exact ⟨by decide, h.2 (by decide)⟩
